import Mathlib

/-!
Verification of the transaction validation/execution protocol of the
private-currency service (`src/transactions.rs`).

The transaction logic (`verify` / `execute` for `CreateWallet`, `Transfer`,
`Accept`, and the `Error` enumeration) is embedded directly from the source.
The external collaborators (commitment algebra, range-proof verifier,
signature checking, encrypted payload codec) are opaque to the core and are
modelled by their interfaces: commitments by an additive group (`Int`),
range proofs and signatures by the boolean verdict functions the core
consults.  The ledger store (`Schema`, `maybe_transfer`) is not part of the
given sources; its operations are modelled from the spec, each marked
`Modelled from the spec:` in its doc comment.
-/

namespace PrivateCurrency

/-- Ed25519 public keys are opaque identifiers to the core. -/
abbrev PublicKey := Nat

/-- Content hashes of transactions are opaque identifiers to the core. -/
abbrev Hash := Nat

/-- Commitments: the core uses only construction from a plaintext with zero
blinding, addition, subtraction and equality, so the additive group `Int`
models the algebra the core consumes. -/
abbrev Commitment := Int

/-- `Commitment::with_no_blinding`: deterministic commitment to a plaintext
amount with zero blinding. -/
def Commitment.with_no_blinding (amount : Nat) : Commitment := (amount : Int)

/-- A `SimpleRangeProof` is consumed only through
`proof.verify(commitment) -> bool`; it is modelled by its verdict
function on commitments. -/
abbrev SimpleRangeProof := Commitment → Bool

/-- `SimpleRangeProof::verify`: apply the proof verifier to a commitment. -/
def SimpleRangeProof.verify (p : SimpleRangeProof) (c : Commitment) : Bool :=
  p c

/-- Opaque encrypted payload (`EncryptedData`); the core stores it without
inspecting it. -/
abbrev EncryptedData := Nat

/-- Half-open range `start..end` of admissible rollback delays;
`stop` models the field named `end` in the source (a Lean keyword). -/
structure DelayRange where
  start : Nat
  stop : Nat
deriving DecidableEq

/-- Service configuration `CONFIG`: `min_transfer_amount` and
`rollback_delay_bounds`. -/
structure Config where
  min_transfer_amount : Nat
  rollback_delay_bounds : DelayRange

/-- Modelled from the spec: the public encryption key of a wallet owner is
deterministically derived from the Ed25519 verification key; the derivation
itself is out of scope for the core, so any fixed deterministic function is
a faithful model. -/
def derive_encryption_key (k : PublicKey) : Nat := k

/-- `CreateWallet` transaction.  `sig k` models
`self.verify_signature(k)`, the verdict of Ed25519 signature verification
of this message under key `k`. -/
structure CreateWallet where
  key : PublicKey
  sig : PublicKey → Bool

/-- `Transfer` transaction.  `fromKey` / `toKey` model the `from` / `to`
fields (`from` is a Lean keyword); `sig k` models
`self.verify_signature(k)`; `hash` is the content hash of the transaction,
computed by the host framework. -/
structure Transfer where
  fromKey : PublicKey
  toKey : PublicKey
  rollback_delay : Nat
  amount : Commitment
  amount_proof : SimpleRangeProof
  sufficient_balance_proof : SimpleRangeProof
  encrypted_data : EncryptedData
  sig : PublicKey → Bool
  hash : Hash

/-- `Accept` transaction. -/
structure Accept where
  receiver : PublicKey
  transfer_id : Hash
  sig : PublicKey → Bool

/-- Wallet record as stored in the ledger (`WalletInfo` exposes the balance
commitment). -/
structure Wallet where
  balance : Commitment
  encryption_key : Nat
deriving DecidableEq

/-- Status of a pending transfer: `Pending` with the two terminal states. -/
inductive TransferStatus where
  | Pending
  | Accepted
  | RolledBack
deriving DecidableEq

/-- Pending-transfer record: the stored transfer data (`to` mirrors
`transfer.to()`) together with its status and creation height. -/
structure PendingTransfer where
  sender : PublicKey
  toKey : PublicKey
  amount : Commitment
  encrypted_data : EncryptedData
  created_at_height : Nat
  rollback_delay : Nat
  status : TransferStatus
deriving DecidableEq

/-- `expires_at_height = created_at_height + rollback_delay`. -/
def PendingTransfer.expires_at_height (t : PendingTransfer) : Nat :=
  t.created_at_height + t.rollback_delay

/-- Ledger state visible to transaction execution: the wallet table, the
pending-transfer table (keyed by transfer id) and the current block
height. -/
structure State where
  wallets : PublicKey → Option Wallet
  pending : Hash → Option PendingTransfer
  height : Nat

/-- Execution errors of `transactions.rs` (`enum Error`). -/
inductive Error where
  | WalletExists
  | UnregisteredSender
  | UnregisteredReceiver
  | IncorrectProof
  | UnknownTransfer
  | UnauthorizedAccept
deriving DecidableEq

/-- The explicit numeric discriminants of `enum Error` (`#[repr(u8)]`):
`WalletExists = 0`, ..., `UnknownTransfer = 4`, `UnauthorizedAccept = 7`. -/
def Error.code : Error → Nat
  | .WalletExists => 0
  | .UnregisteredSender => 1
  | .UnregisteredReceiver => 2
  | .IncorrectProof => 3
  | .UnknownTransfer => 4
  | .UnauthorizedAccept => 7

/-- `impl From<Error> for ExecutionError`:
`ExecutionError::new(e as u8)`, i.e. the numeric code of the variant. -/
def executionErrorCode (e : Error) : Nat := Error.code e

/-- Modelled from the spec: `Schema::create_wallet(key, tx)` fails with
`WalletExists` if a wallet for `key` already exists; otherwise it creates a
wallet whose balance commitment is a commitment to zero and whose
encryption key is derived from `key`, with no other change. -/
def Schema.create_wallet (s : State) (key : PublicKey) :
    Option Error × State :=
  match s.wallets key with
  | some _ => (some Error.WalletExists, s)
  | none =>
    (none,
      { s with
        wallets := fun k =>
          if k = key then
            some { balance := Commitment.with_no_blinding 0,
                   encryption_key := derive_encryption_key key }
          else s.wallets k })

/-- Modelled from the spec: `Schema::update_sender(sender, amount, tx)`
debits the escrowed amount, subtracting `amount` from the sender wallet
balance commitment. -/
def Schema.update_sender (s : State) (key : PublicKey)
    (amount : Commitment) : State :=
  { s with
    wallets := fun k =>
      if k = key then
        (s.wallets k).map fun w => { w with balance := w.balance - amount }
      else s.wallets k }

/-- Modelled from the spec: `Schema::add_unaccepted_payment(receiver, tx)`
creates the PendingTransfer record keyed by the transaction hash, with
status `Pending`, `created_at_height` the current block height, storing the
transfer data and `encrypted_data`. -/
def Schema.add_unaccepted_payment (s : State) (tx : Transfer) : State :=
  { s with
    pending := fun h =>
      if h = tx.hash then
        some { sender := tx.fromKey
               toKey := tx.toKey
               amount := tx.amount
               encrypted_data := tx.encrypted_data
               created_at_height := s.height
               rollback_delay := tx.rollback_delay
               status := TransferStatus.Pending }
      else s.pending h }

/-- Modelled from the spec: `maybe_transfer(store, transfer_id)` returns the
transfer record restricted to non-terminal (`Pending`) status. -/
def maybe_transfer (s : State) (id : Hash) : Option PendingTransfer :=
  match s.pending id with
  | some t => if t.status = TransferStatus.Pending then some t else none
  | none => none

/-- Modelled from the spec: `Schema::accept_payment(transfer, transfer_id)`
adds the amount commitment homomorphically to the receiver's balance
commitment and transitions the PendingTransfer to `Accepted`. -/
def Schema.accept_payment (s : State) (t : PendingTransfer) (id : Hash) :
    Option Error × State :=
  (none,
    { s with
      wallets := fun k =>
        if k = t.toKey then
          (s.wallets k).map fun w => { w with balance := w.balance + t.amount }
        else s.wallets k
      pending := fun h =>
        if h = id then some { t with status := TransferStatus.Accepted }
        else s.pending h })

/-- `CreateWallet::verify`: `self.verify_signature(self.key())`. -/
def CreateWallet.verify (tx : CreateWallet) : Bool :=
  tx.sig tx.key

/-- `CreateWallet::execute`: `schema.create_wallet(self.key(), self)?`. -/
def CreateWallet.execute (tx : CreateWallet) (s : State) :
    Option Error × State :=
  Schema.create_wallet s tx.key

/-- `Transfer::verify_stateless`: the amount proof is checked against
`amount - MIN_TRANSFER_COMMITMENT`, where `MIN_TRANSFER_COMMITMENT` is
`Commitment::with_no_blinding(CONFIG.min_transfer_amount)`. -/
def Transfer.verify_stateless (cfg : Config) (tx : Transfer) : Bool :=
  SimpleRangeProof.verify tx.amount_proof
    (tx.amount - Commitment.with_no_blinding cfg.min_transfer_amount)

/-- `Transfer::verify_stateful`: the sufficient-balance proof is checked
against `sender.balance - amount`. -/
def Transfer.verify_stateful (tx : Transfer) (sender : Wallet) : Bool :=
  SimpleRangeProof.verify tx.sufficient_balance_proof
    (sender.balance - tx.amount)

/-- `Transfer::verify`: rejects a rollback delay outside
`[bounds.start, bounds.end)`, then requires `from != to`, a valid
signature under `from`, and the stateless proof check. -/
def Transfer.verify (cfg : Config) (tx : Transfer) : Bool :=
  if cfg.rollback_delay_bounds.start > tx.rollback_delay
      ∨ cfg.rollback_delay_bounds.stop ≤ tx.rollback_delay then
    false
  else
    (tx.fromKey != tx.toKey) && tx.sig tx.fromKey
      && Transfer.verify_stateless cfg tx

/-- `Transfer::execute`: look up sender and receiver wallets
(`UnregisteredSender` / `UnregisteredReceiver` on absence), re-check the
sufficient-balance proof against the current sender balance
(`IncorrectProof` on failure), then debit the sender and register the
pending payment. -/
def Transfer.execute (tx : Transfer) (s : State) : Option Error × State :=
  match s.wallets tx.fromKey with
  | none => (some Error.UnregisteredSender, s)
  | some sender =>
    match s.wallets tx.toKey with
    | none => (some Error.UnregisteredReceiver, s)
    | some _ =>
      if ¬ Transfer.verify_stateful tx sender then
        (some Error.IncorrectProof, s)
      else
        (none,
          Schema.add_unaccepted_payment
            (Schema.update_sender s tx.fromKey tx.amount) tx)

/-- `Accept::verify`: `self.verify_signature(self.receiver())`. -/
def Accept.verify (tx : Accept) : Bool :=
  tx.sig tx.receiver

/-- `Accept::execute`: look up the pending transfer (`UnknownTransfer` on
absence), check the stored receiver against the signer
(`UnauthorizedAccept` on mismatch), then accept the payment. -/
def Accept.execute (tx : Accept) (s : State) : Option Error × State :=
  match maybe_transfer s tx.transfer_id with
  | none => (some Error.UnknownTransfer, s)
  | some t =>
    if t.toKey ≠ tx.receiver then (some Error.UnauthorizedAccept, s)
    else Schema.accept_payment s t tx.transfer_id

/-- The three transaction kinds of the service (`CryptoTransactions`). -/
inductive Tx where
  | createWallet (t : CreateWallet)
  | transfer (t : Transfer)
  | accept (t : Accept)

/-- Dispatch `execute` over the transaction kinds. -/
def Tx.execute : Tx → State → Option Error × State
  | .createWallet t, s => CreateWallet.execute t s
  | .transfer t, s => Transfer.execute t s
  | .accept t, s => Accept.execute t s

/-- Apply a sequence of transactions in order, keeping the resulting state
of each execution (failed executions leave the state unchanged). -/
def execSeq : List Tx → State → State
  | [], s => s
  | tx :: rest, s => execSeq rest (Tx.execute tx s).2

/-- No `Pending`-status record is stored under `id` (absent or terminal). -/
def TerminalAt (s : State) (id : Hash) : Prop :=
  ∀ t, s.pending id = some t → t.status ≠ TransferStatus.Pending

/-! Concrete sample configuration, transactions and ledger states, used to
exercise the definitions on explicit inputs. -/

/-- A sample configuration: floor 1, admissible delays `5..10`. -/
def exCfg : Config :=
  { min_transfer_amount := 1
    rollback_delay_bounds := { start := 5, stop := 10 } }

/-- A sample wallet with balance commitment 5. -/
def exWallet : Wallet := { balance := 5, encryption_key := 0 }

/-- The empty ledger state. -/
def sEmpty : State :=
  { wallets := fun _ => none, pending := fun _ => none, height := 100 }

/-- A ledger holding only the wallet of key 0. -/
def sOnly0 : State :=
  { wallets := fun k => if k = 0 then some exWallet else none
    pending := fun _ => none
    height := 100 }

/-- A ledger holding the wallets of keys 0 and 1. -/
def sBoth : State :=
  { wallets := fun k => if k = 0 ∨ k = 1 then some exWallet else none
    pending := fun _ => none
    height := 100 }

/-- A transfer of (committed) amount 1 from key 0 to key 1, with proofs
that verify everything and a valid signature. -/
def exTransfer01 : Transfer :=
  { fromKey := 0
    toKey := 1
    rollback_delay := 5
    amount := 1
    amount_proof := fun _ => true
    sufficient_balance_proof := fun _ => true
    encrypted_data := 7
    sig := fun _ => true
    hash := 42 }

/-- `exTransfer01` with a sufficient-balance proof that never verifies. -/
def exTransfer01bad : Transfer :=
  { exTransfer01 with sufficient_balance_proof := fun _ => false }

/-- `exTransfer01` with an invalid signature and a failing amount proof:
its stateless admission data is broken but its stateful data is intact. -/
def exTransfer01unverified : Transfer :=
  { exTransfer01 with sig := fun _ => false, amount_proof := fun _ => false }

/-- A self-transfer (key 0 to key 0) whose stateful proof verifies. -/
def exSelfTransfer : Transfer :=
  { exTransfer01 with toKey := 0 }

/-- A sample pending-transfer record from key 0 to key 1, status
`Pending`, created at height 100 with delay 5. -/
def exPending : PendingTransfer :=
  { sender := 0
    toKey := 1
    amount := 2
    encrypted_data := 7
    created_at_height := 100
    rollback_delay := 5
    status := TransferStatus.Pending }

/-- Wallets 0 and 1 plus the pending record `exPending` under id 42. -/
def sPend : State :=
  { wallets := fun k => if k = 0 ∨ k = 1 then some exWallet else none
    pending := fun h => if h = 42 then some exPending else none
    height := 101 }

/-- `sPend` at a block height past `exPending`'s expiry height. -/
def sPendLate : State := { sPend with height := 200 }

/-- The matching acceptance of `exPending` by its receiver, key 1. -/
def exAccept : Accept :=
  { receiver := 1, transfer_id := 42, sig := fun _ => true }

/-- An acceptance of transfer 42 signed by key 2, not its receiver. -/
def exAcceptWrong : Accept :=
  { receiver := 2, transfer_id := 42, sig := fun _ => true }

/-- An acceptance referencing the unknown transfer id 43. -/
def exAcceptMissing : Accept :=
  { receiver := 1, transfer_id := 43, sig := fun _ => true }

/-- A wallet-creation transaction for key 3 with a valid signature. -/
def exCreate3 : CreateWallet := { key := 3, sig := fun _ => true }

/-- A wallet-creation transaction for the already-registered key 0. -/
def exCreate0 : CreateWallet := { key := 0, sig := fun _ => true }

/-- C1: `Transfer::verify` returns true iff the rollback delay lies in the
half-open interval `[bounds.start, bounds.end)`, the sender key differs
from the receiver key, the signature is valid under the sender key, and the
amount proof verifies against `amount - with_no_blinding(min_transfer_amount)`;
consequently every self-transfer is rejected by `verify`. -/
theorem C1_transfer_verify_iff (cfg : Config) (tx : Transfer) :
    (Transfer.verify cfg tx = true ↔
      (cfg.rollback_delay_bounds.start ≤ tx.rollback_delay ∧
       tx.rollback_delay < cfg.rollback_delay_bounds.stop ∧
       tx.fromKey ≠ tx.toKey ∧
       tx.sig tx.fromKey = true ∧
       SimpleRangeProof.verify tx.amount_proof
         (tx.amount - Commitment.with_no_blinding cfg.min_transfer_amount)
         = true)) ∧
    (tx.fromKey = tx.toKey → Transfer.verify cfg tx = false) := by
  constructor
  · unfold Transfer.verify Transfer.verify_stateless
    split
    · rename_i hcond
      simp only [Bool.false_eq_true, false_iff, not_and]
      intro h1 h2
      omega
    · rename_i hcond
      push_neg at hcond
      simp only [Bool.and_eq_true, bne_iff_ne, ne_eq]
      constructor
      · rintro ⟨⟨hne, hsig⟩, hproof⟩
        exact ⟨hcond.1, by omega, hne, hsig, hproof⟩
      · rintro ⟨_, _, hne, hsig, hproof⟩
        exact ⟨⟨hne, hsig⟩, hproof⟩
  · intro heq
    unfold Transfer.verify
    split
    · rfl
    · simp [heq]

/-- Witness for C1: the concrete self-transfer `exSelfTransfer` is rejected
by `verify` under the sample configuration. -/
theorem C1_transfer_verify_iff_witness :
    exSelfTransfer.fromKey = exSelfTransfer.toKey ∧
    Transfer.verify exCfg exSelfTransfer = false :=
  ⟨rfl, (C1_transfer_verify_iff exCfg exSelfTransfer).2 rfl⟩

/-- C8: the numeric error codes are `WalletExists = 0`,
`UnregisteredSender = 1`, `UnregisteredReceiver = 2`, `IncorrectProof = 3`,
`UnknownTransfer = 4`, `UnauthorizedAccept = 7`; no variant uses the
reserved codes 5 and 6; and the conversion to `ExecutionError` returns
exactly the variant's numeric tag. -/
theorem C8_error_codes :
    Error.code Error.WalletExists = 0 ∧
    Error.code Error.UnregisteredSender = 1 ∧
    Error.code Error.UnregisteredReceiver = 2 ∧
    Error.code Error.IncorrectProof = 3 ∧
    Error.code Error.UnknownTransfer = 4 ∧
    Error.code Error.UnauthorizedAccept = 7 ∧
    (∀ e : Error, Error.code e ≠ 5 ∧ Error.code e ≠ 6) ∧
    (∀ e : Error, executionErrorCode e = Error.code e) := by
  refine ⟨rfl, rfl, rfl, rfl, rfl, rfl, fun e => ?_, fun e => rfl⟩
  cases e <;> simp [Error.code]

/-- C2: `Transfer::execute` fails with `UnregisteredSender` when the sender
wallet is absent (regardless of the receiver), with `UnregisteredReceiver`
when the sender wallet exists but the receiver wallet is absent, with
`IncorrectProof` when both exist but the sufficient-balance proof does not
verify against the sender's current balance minus the amount commitment,
and succeeds when none of the three conditions triggers. -/
theorem C2_transfer_execute_errors (tx : Transfer) (s : State) :
    (s.wallets tx.fromKey = none →
      (Transfer.execute tx s).1 = some Error.UnregisteredSender) ∧
    (∀ w, s.wallets tx.fromKey = some w → s.wallets tx.toKey = none →
      (Transfer.execute tx s).1 = some Error.UnregisteredReceiver) ∧
    (∀ w w2, s.wallets tx.fromKey = some w → s.wallets tx.toKey = some w2 →
      SimpleRangeProof.verify tx.sufficient_balance_proof
        (w.balance - tx.amount) = false →
      (Transfer.execute tx s).1 = some Error.IncorrectProof) ∧
    (∀ w w2, s.wallets tx.fromKey = some w → s.wallets tx.toKey = some w2 →
      SimpleRangeProof.verify tx.sufficient_balance_proof
        (w.balance - tx.amount) = true →
      (Transfer.execute tx s).1 = none) := by
  refine ⟨?_, ?_, ?_, ?_⟩
  · intro h
    simp [Transfer.execute, h]
  · intro w hw hr
    simp [Transfer.execute, hw, hr]
  · intro w w2 hw hr hp
    simp [Transfer.execute, Transfer.verify_stateful, hw, hr, hp]
  · intro w w2 hw hr hp
    simp [Transfer.execute, Transfer.verify_stateful, hw, hr, hp]

/-- Witness for C2: each of the four cases realised on concrete inputs. -/
theorem C2_transfer_execute_errors_witness :
    (Transfer.execute exTransfer01 sEmpty).1
        = some Error.UnregisteredSender ∧
    (Transfer.execute exTransfer01 sOnly0).1
        = some Error.UnregisteredReceiver ∧
    (Transfer.execute exTransfer01bad sBoth).1
        = some Error.IncorrectProof ∧
    (Transfer.execute exTransfer01 sBoth).1 = none :=
  ⟨(C2_transfer_execute_errors exTransfer01 sEmpty).1 rfl,
   (C2_transfer_execute_errors exTransfer01 sOnly0).2.1 exWallet rfl rfl,
   (C2_transfer_execute_errors exTransfer01bad sBoth).2.2.1
     exWallet exWallet rfl rfl rfl,
   (C2_transfer_execute_errors exTransfer01 sBoth).2.2.2
     exWallet exWallet rfl rfl rfl⟩

/-- Counterexample to C3 as stated: the self-transfer `exSelfTransfer`
executes successfully on `sOnly0`, but the receiver's wallet record (key 0,
which is also the sender) does not keep its balance commitment: `execute`
never checks `from != to`, so for a self-transfer the receiver's balance is
debited. -/
theorem C3_counterexample :
    (Transfer.execute exSelfTransfer sOnly0).1 = none ∧
    (Transfer.execute exSelfTransfer sOnly0).2.wallets exSelfTransfer.toKey ≠
      sOnly0.wallets exSelfTransfer.toKey := by
  constructor
  · rfl
  · intro h
    have := congrArg (fun o => (o.map Wallet.balance)) h
    simp [Transfer.execute, Schema.update_sender,
      Schema.add_unaccepted_payment, sOnly0, exSelfTransfer, exTransfer01,
      exWallet, Transfer.verify_stateful, SimpleRangeProof.verify] at this

/-- C3 (amended): when `Transfer::execute` succeeds, the sender's balance
commitment is the previous one minus the amount commitment, a
PendingTransfer keyed by the transaction hash is stored with status
`Pending`, `created_at_height` the current block height and the transfer's
`encrypted_data`, the height is unchanged, and — provided the receiver key
differs from the sender key — the receiver's wallet record is unchanged
(the amount is escrowed, not credited). -/
theorem C3_transfer_execute_success (tx : Transfer) (s s2 : State)
    (h : Transfer.execute tx s = (none, s2)) :
    (∀ w, s.wallets tx.fromKey = some w →
      s2.wallets tx.fromKey = some { w with balance := w.balance - tx.amount }) ∧
    s2.pending tx.hash =
      some { sender := tx.fromKey
             toKey := tx.toKey
             amount := tx.amount
             encrypted_data := tx.encrypted_data
             created_at_height := s.height
             rollback_delay := tx.rollback_delay
             status := TransferStatus.Pending } ∧
    (tx.toKey ≠ tx.fromKey → s2.wallets tx.toKey = s.wallets tx.toKey) ∧
    s2.height = s.height := by
  cases hw : s.wallets tx.fromKey with
  | none => simp [Transfer.execute, hw] at h
  | some sender =>
    cases hr : s.wallets tx.toKey with
    | none => simp [Transfer.execute, hw, hr] at h
    | some receiver =>
      by_cases hp : Transfer.verify_stateful tx sender = true
      · have h2 : Schema.add_unaccepted_payment
            (Schema.update_sender s tx.fromKey tx.amount) tx = s2 := by
          simpa [Transfer.execute, hw, hr, hp, Prod.ext_iff] using h
        subst h2
        refine ⟨?_, ?_, ?_, rfl⟩
        · intro w hw2
          have hws : w = sender := (Option.some.inj hw2).symm
          subst hws
          simp [Schema.add_unaccepted_payment, Schema.update_sender, hw]
        · simp [Schema.add_unaccepted_payment, Schema.update_sender]
        · intro hne
          simp [Schema.add_unaccepted_payment, Schema.update_sender, hne, hr]
      · simp [Transfer.execute, hw, hr, hp] at h

/-- Witness for C3 (amended): the concrete transfer `exTransfer01` on
`sBoth` debits the sender, records the pending transfer under hash 42, and
leaves the receiver's wallet untouched. -/
theorem C3_transfer_execute_success_witness :
    (Transfer.execute exTransfer01 sBoth).2.wallets exTransfer01.fromKey =
      some { exWallet with balance := exWallet.balance - exTransfer01.amount } ∧
    (Transfer.execute exTransfer01 sBoth).2.pending exTransfer01.hash =
      some { sender := exTransfer01.fromKey
             toKey := exTransfer01.toKey
             amount := exTransfer01.amount
             encrypted_data := exTransfer01.encrypted_data
             created_at_height := sBoth.height
             rollback_delay := exTransfer01.rollback_delay
             status := TransferStatus.Pending } ∧
    (Transfer.execute exTransfer01 sBoth).2.wallets exTransfer01.toKey =
      sBoth.wallets exTransfer01.toKey ∧
    (Transfer.execute exTransfer01 sBoth).2.height = sBoth.height := by
  have h := C3_transfer_execute_success exTransfer01 sBoth
    (Transfer.execute exTransfer01 sBoth).2 rfl
  exact ⟨h.1 exWallet rfl, h.2.1, h.2.2.1 (by decide), h.2.2.2⟩

/-- C7: `CreateWallet::verify` holds exactly when the signature is valid
under the transaction's key; `execute` fails with `WalletExists` exactly
when a wallet for the key already exists, and otherwise creates a wallet
with a zero-commitment balance and the derived encryption key, changing
nothing else in the ledger state. -/
theorem C7_create_wallet (tx : CreateWallet) (s : State) :
    (CreateWallet.verify tx = true ↔ tx.sig tx.key = true) ∧
    ((CreateWallet.execute tx s).1 = some Error.WalletExists ↔
      ∃ w, s.wallets tx.key = some w) ∧
    (s.wallets tx.key = none →
      (CreateWallet.execute tx s).1 = none ∧
      (CreateWallet.execute tx s).2.wallets tx.key =
        some { balance := Commitment.with_no_blinding 0
               encryption_key := derive_encryption_key tx.key } ∧
      (∀ k, k ≠ tx.key →
        (CreateWallet.execute tx s).2.wallets k = s.wallets k) ∧
      (CreateWallet.execute tx s).2.pending = s.pending ∧
      (CreateWallet.execute tx s).2.height = s.height) := by
  refine ⟨Iff.rfl, ?_, fun h => ?_⟩
  · unfold CreateWallet.execute Schema.create_wallet
    cases hw : s.wallets tx.key <;> simp
  · unfold CreateWallet.execute Schema.create_wallet
    rw [h]
    exact ⟨rfl, by simp, fun k hk => by simp [hk], rfl, rfl⟩

/-- Witness for C7: creating a wallet for the fresh key 3 on `sBoth`
succeeds and installs the zero-balance wallet; creating one for the
registered key 0 fails with `WalletExists`; the signature check is the
verdict under the transaction's own key. -/
theorem C7_create_wallet_witness :
    CreateWallet.verify exCreate3 = true ∧
    (CreateWallet.execute exCreate0 sBoth).1 = some Error.WalletExists ∧
    (CreateWallet.execute exCreate3 sBoth).1 = none ∧
    (CreateWallet.execute exCreate3 sBoth).2.wallets exCreate3.key =
      some { balance := Commitment.with_no_blinding 0
             encryption_key := derive_encryption_key exCreate3.key } ∧
    (CreateWallet.execute exCreate3 sBoth).2.wallets 0 = sBoth.wallets 0 ∧
    (CreateWallet.execute exCreate3 sBoth).2.height = sBoth.height :=
  ⟨(C7_create_wallet exCreate3 sBoth).1.mpr rfl,
   (C7_create_wallet exCreate0 sBoth).2.1.mpr ⟨exWallet, rfl⟩,
   ((C7_create_wallet exCreate3 sBoth).2.2 rfl).1,
   ((C7_create_wallet exCreate3 sBoth).2.2 rfl).2.1,
   ((C7_create_wallet exCreate3 sBoth).2.2 rfl).2.2.1 0 (by decide),
   ((C7_create_wallet exCreate3 sBoth).2.2 rfl).2.2.2.2⟩

/-- C4: `Accept::execute` fails with `UnknownTransfer` exactly when no
record with the given transfer id is stored in `Pending` status (covering
missing, `Accepted` and `RolledBack` records identically); otherwise it
fails with `UnauthorizedAccept` when the stored receiver differs from the
signer; otherwise it credits the amount commitment to the receiver's
balance commitment and transitions the record to `Accepted`. -/
theorem C4_accept_execute (a : Accept) (s : State) :
    ((Accept.execute a s).1 = some Error.UnknownTransfer ↔
      ∀ t, s.pending a.transfer_id = some t →
        t.status ≠ TransferStatus.Pending) ∧
    (∀ t, s.pending a.transfer_id = some t →
      t.status = TransferStatus.Pending → t.toKey ≠ a.receiver →
      (Accept.execute a s).1 = some Error.UnauthorizedAccept) ∧
    (∀ t, s.pending a.transfer_id = some t →
      t.status = TransferStatus.Pending → t.toKey = a.receiver →
      (Accept.execute a s).1 = none ∧
      (Accept.execute a s).2.pending a.transfer_id =
        some { t with status := TransferStatus.Accepted } ∧
      (∀ w, s.wallets t.toKey = some w →
        (Accept.execute a s).2.wallets t.toKey =
          some { w with balance := w.balance + t.amount })) := by
  refine ⟨?_, ?_, ?_⟩
  · cases hp : s.pending a.transfer_id with
    | none =>
      constructor
      · intro _ t ht
        exact nomatch ht
      · intro _
        simp [Accept.execute, maybe_transfer, hp]
    | some t =>
      by_cases hst : t.status = TransferStatus.Pending
      · constructor
        · intro hres
          by_cases hto : t.toKey = a.receiver
          · simp [Accept.execute, maybe_transfer, hp, hst, hto,
              Schema.accept_payment] at hres
          · simp [Accept.execute, maybe_transfer, hp, hst, hto] at hres
        · intro hall
          exact absurd hst (hall t rfl)
      · constructor
        · intro _ t2 ht2
          injection ht2 with h2
          exact h2 ▸ hst
        · intro _
          simp [Accept.execute, maybe_transfer, hp, hst]
  · intro t ht hst hto
    have hmt : maybe_transfer s a.transfer_id = some t := by
      simp [maybe_transfer, ht, hst]
    simp [Accept.execute, hmt, hto]
  · intro t ht hst hto
    have hmt : maybe_transfer s a.transfer_id = some t := by
      simp [maybe_transfer, ht, hst]
    refine ⟨?_, ?_, ?_⟩
    · simp only [Accept.execute, hmt]
      rw [if_neg (by simp [hto])]
      simp [Schema.accept_payment]
    · simp only [Accept.execute, hmt]
      rw [if_neg (by simp [hto])]
      simp [Schema.accept_payment]
    · intro w hw
      simp only [Accept.execute, hmt]
      rw [if_neg (by simp [hto])]
      simp [Schema.accept_payment, hw]

/-- Witness for C4: on the concrete ledger `sPend`, an acceptance of the
unknown id 43 fails with `UnknownTransfer`, one signed by the wrong key
fails with `UnauthorizedAccept`, and the matching acceptance succeeds,
credits wallet 1 and marks the record `Accepted`. -/
theorem C4_accept_execute_witness :
    (Accept.execute exAcceptMissing sPend).1 = some Error.UnknownTransfer ∧
    (Accept.execute exAcceptWrong sPend).1 = some Error.UnauthorizedAccept ∧
    (Accept.execute exAccept sPend).1 = none ∧
    (Accept.execute exAccept sPend).2.pending exAccept.transfer_id =
      some { exPending with status := TransferStatus.Accepted } ∧
    (Accept.execute exAccept sPend).2.wallets exPending.toKey =
      some { exWallet with balance := exWallet.balance + exPending.amount } :=
  ⟨(C4_accept_execute exAcceptMissing sPend).1.mpr
      (fun t ht => nomatch ht),
   (C4_accept_execute exAcceptWrong sPend).2.1 exPending rfl rfl (by decide),
   ((C4_accept_execute exAccept sPend).2.2 exPending rfl rfl rfl).1,
   ((C4_accept_execute exAccept sPend).2.2 exPending rfl rfl rfl).2.1,
   ((C4_accept_execute exAccept sPend).2.2 exPending rfl rfl rfl).2.2
     exWallet rfl⟩

/-- C6: execution is all-or-nothing — whenever `execute` of any of the
three transaction kinds returns an error, the resulting ledger state is
exactly the input state. -/
theorem C6_atomic_failure (tx : Tx) (s : State) (e : Error)
    (h : (Tx.execute tx s).1 = some e) : (Tx.execute tx s).2 = s := by
  cases tx with
  | createWallet t =>
    simp only [Tx.execute, CreateWallet.execute, Schema.create_wallet] at h ⊢
    cases hw : s.wallets t.key <;> simp [hw] at h ⊢
  | transfer t =>
    simp only [Tx.execute, Transfer.execute] at h ⊢
    cases hw : s.wallets t.fromKey with
    | none => simp [hw]
    | some sender =>
      cases hr : s.wallets t.toKey with
      | none => simp [hw, hr]
      | some receiver =>
        by_cases hp : Transfer.verify_stateful t sender = true <;>
          simp [hw, hr, hp] at h ⊢
  | accept t =>
    simp only [Tx.execute, Accept.execute] at h ⊢
    cases hm : maybe_transfer s t.transfer_id with
    | none => simp [hm]
    | some tr =>
      by_cases hto : tr.toKey = t.receiver <;>
        simp [hm, hto, Schema.accept_payment] at h ⊢

/-- Witness for C6: the failing acceptance of the unknown id 43 leaves the
concrete ledger `sPend` unchanged. -/
theorem C6_atomic_failure_witness :
    (Tx.execute (Tx.accept exAcceptMissing) sPend).1 =
      some Error.UnknownTransfer ∧
    (Tx.execute (Tx.accept exAcceptMissing) sPend).2 = sPend :=
  ⟨rfl, C6_atomic_failure (Tx.accept exAcceptMissing) sPend
    Error.UnknownTransfer rfl⟩

/-- C9: `Transfer::execute` repeats none of the stateless admission
checks: its outcome is unchanged under arbitrary replacement of the
signature and the amount proof (the only data the stateless checks consult
beyond the keys and the delay, neither of which `execute` compares against
the bounds or against each other); and there is a transfer rejected by
`verify` — a self-transfer — whose `execute` nevertheless succeeds because
both wallets are registered and the sufficient-balance proof verifies. -/
theorem C9_execute_skips_stateless_checks :
    (∀ (s : State) (tx tx2 : Transfer),
      tx2.fromKey = tx.fromKey → tx2.toKey = tx.toKey →
      tx2.amount = tx.amount →
      tx2.sufficient_balance_proof = tx.sufficient_balance_proof →
      tx2.encrypted_data = tx.encrypted_data → tx2.hash = tx.hash →
      tx2.rollback_delay = tx.rollback_delay →
      Transfer.execute tx2 s = Transfer.execute tx s) ∧
    (∃ (cfg : Config) (tx : Transfer) (s : State),
      Transfer.verify cfg tx = false ∧
      (∃ w, s.wallets tx.fromKey = some w ∧
        Transfer.verify_stateful tx w = true) ∧
      (∃ w, s.wallets tx.toKey = some w) ∧
      (Transfer.execute tx s).1 = none) := by
  constructor
  · intro s tx tx2 h1 h2 h3 h4 h5 h6 h7
    simp only [Transfer.execute, Transfer.verify_stateful,
      Schema.update_sender, Schema.add_unaccepted_payment,
      SimpleRangeProof.verify, h1, h2, h3, h4, h5, h6, h7]
  · exact ⟨exCfg, exSelfTransfer, sOnly0,
      rfl, ⟨exWallet, rfl, rfl⟩, ⟨exWallet, rfl⟩, rfl⟩

/-- Witness for C9: replacing `exTransfer01`'s signature and amount proof
by failing ones does not change what `execute` does on `sBoth`. -/
theorem C9_execute_skips_stateless_checks_witness :
    Transfer.execute exTransfer01unverified sBoth =
      Transfer.execute exTransfer01 sBoth :=
  C9_execute_skips_stateless_checks.1 sBoth exTransfer01
    exTransfer01unverified rfl rfl rfl rfl rfl rfl rfl

/-- C10: `Accept::execute` consults neither the block height nor the
expiry height: on any two states agreeing on wallets and pending records
and differing only in height, it returns the same error verdict and
produces the same wallets and pending records; and a concrete `Pending`
transfer whose expiry height has already elapsed is still accepted
successfully. -/
theorem C10_accept_ignores_height :
    (∀ (s : State) (h : Nat) (a : Accept),
      (Accept.execute a { s with height := h }).1 =
        (Accept.execute a s).1 ∧
      (Accept.execute a { s with height := h }).2.wallets =
        (Accept.execute a s).2.wallets ∧
      (Accept.execute a { s with height := h }).2.pending =
        (Accept.execute a s).2.pending) ∧
    (∃ (s : State) (a : Accept) (t : PendingTransfer),
      s.pending a.transfer_id = some t ∧
      t.status = TransferStatus.Pending ∧
      PendingTransfer.expires_at_height t ≤ s.height ∧
      (Accept.execute a s).1 = none) := by
  constructor
  · intro s h a
    have hm : maybe_transfer { s with height := h } a.transfer_id =
        maybe_transfer s a.transfer_id := rfl
    cases hmt : maybe_transfer s a.transfer_id with
    | none => simp [Accept.execute, hm, hmt]
    | some t =>
      by_cases hto : t.toKey = a.receiver <;>
        simp [Accept.execute, hm, hmt, hto, Schema.accept_payment]
  · exact ⟨sPendLate, exAccept, exPending, rfl, rfl, by decide, rfl⟩

/-- `CreateWallet::execute` never touches the pending-transfer table. -/
theorem createWallet_pending_eq (t : CreateWallet) (s : State) :
    (CreateWallet.execute t s).2.pending = s.pending := by
  unfold CreateWallet.execute Schema.create_wallet
  cases s.wallets t.key <;> rfl

/-- `Transfer::execute` changes the pending-transfer table only at the
transaction's own hash. -/
theorem transfer_pending_other (t : Transfer) (s : State) (id : Hash)
    (hne : t.hash ≠ id) :
    (Transfer.execute t s).2.pending id = s.pending id := by
  unfold Transfer.execute
  cases s.wallets t.fromKey with
  | none => rfl
  | some sender =>
    cases s.wallets t.toKey with
    | none => rfl
    | some receiver =>
      by_cases hp : Transfer.verify_stateful t sender = true
      · simp [hp, Schema.add_unaccepted_payment, Schema.update_sender,
          Ne.symm hne]
      · simp [hp]

/-- `Accept::execute` preserves terminality of every id: the records it
writes are in `Accepted` status. -/
theorem accept_preserves_terminalAt (t : Accept) (s : State) (id : Hash)
    (h : TerminalAt s id) : TerminalAt (Accept.execute t s).2 id := by
  cases hm : maybe_transfer s t.transfer_id with
  | none =>
    simp only [Accept.execute, hm]
    exact h
  | some tr =>
    by_cases hto : tr.toKey = t.receiver
    · intro t2 ht2
      simp only [Accept.execute, hm, hto, ne_eq, not_true_eq_false,
        if_false, Schema.accept_payment] at ht2
      by_cases hid : id = t.transfer_id
      · rw [if_pos hid] at ht2
        injection ht2 with h2
        rw [← h2]
        simp
      · rw [if_neg hid] at ht2
        exact h t2 ht2
    · simp only [Accept.execute, hm]
      rw [if_pos hto]
      exact h

/-- A successful `Accept::execute` leaves its transfer id terminal. -/
theorem accept_success_terminalAt (a : Accept) (s : State)
    (hsucc : (Accept.execute a s).1 = none) :
    TerminalAt (Accept.execute a s).2 a.transfer_id := by
  cases hm : maybe_transfer s a.transfer_id with
  | none => simp [Accept.execute, hm] at hsucc
  | some t =>
    by_cases hto : t.toKey = a.receiver
    · intro t2 ht2
      simp only [Accept.execute, hm, hto, ne_eq, not_true_eq_false,
        if_false, if_true, Schema.accept_payment] at ht2
      injection ht2 with h2
      rw [← h2]
      simp
    · simp [Accept.execute, hm, hto] at hsucc

/-- One execution step preserves terminality of an id, provided the step
is not a `Transfer` whose content hash is that very id. -/
theorem terminalAt_step (tx : Tx) (s : State) (id : Hash)
    (h : TerminalAt s id)
    (hfresh : ∀ tr : Transfer, tx = Tx.transfer tr → tr.hash ≠ id) :
    TerminalAt (Tx.execute tx s).2 id := by
  cases tx with
  | createWallet t =>
    intro t2 ht2
    rw [Tx.execute, createWallet_pending_eq] at ht2
    exact h t2 ht2
  | transfer t =>
    intro t2 ht2
    rw [Tx.execute, transfer_pending_other t s id (hfresh t rfl)] at ht2
    exact h t2 ht2
  | accept t => exact accept_preserves_terminalAt t s id h

/-- Executing any sequence of transactions preserves terminality of an id,
provided no `Transfer` in the sequence has that id as its content hash. -/
theorem terminalAt_execSeq (txs : List Tx) (s : State) (id : Hash)
    (h : TerminalAt s id)
    (hfresh : ∀ tr : Transfer, Tx.transfer tr ∈ txs → tr.hash ≠ id) :
    TerminalAt (execSeq txs s) id := by
  induction txs generalizing s with
  | nil => exact h
  | cons tx rest ih =>
    exact ih (Tx.execute tx s).2
      (terminalAt_step tx s id h
        (fun tr htx => hfresh tr (htx ▸ List.mem_cons_self tx rest)))
      (fun tr htr => hfresh tr (List.mem_cons_of_mem tx htr))

/-- A terminal id is invisible to `maybe_transfer`. -/
theorem maybe_transfer_of_terminalAt (s : State) (id : Hash)
    (h : TerminalAt s id) : maybe_transfer s id = none := by
  unfold maybe_transfer
  cases hp : s.pending id with
  | none => rfl
  | some t =>
    show (if t.status = TransferStatus.Pending then some t else none) = none
    rw [if_neg (h t hp)]

/-- An `Accept` on an id with no `Pending` record fails with
`UnknownTransfer`. -/
theorem accept_unknown_of_maybe_none (a : Accept) (s : State)
    (hm : maybe_transfer s a.transfer_id = none) :
    (Accept.execute a s).1 = some Error.UnknownTransfer := by
  simp [Accept.execute, hm]

/-- C5: at-most-once acceptance.  After one `Accept` on a transfer id has
succeeded, every subsequent `Accept` on the same id fails with
`UnknownTransfer`, whatever sequence of transactions executes in between —
using that a transfer id is the content hash of the executed `Transfer`
(unique per the data model), so no later `Transfer` stores a record under
that id again. -/
theorem C5_at_most_once_accept (s : State) (a : Accept)
    (hsucc : (Accept.execute a s).1 = none)
    (txs : List Tx)
    (hfresh : ∀ tr : Transfer, Tx.transfer tr ∈ txs →
      tr.hash ≠ a.transfer_id)
    (a2 : Accept) (hid : a2.transfer_id = a.transfer_id) :
    (Accept.execute a2 (execSeq txs (Accept.execute a s).2)).1 =
      some Error.UnknownTransfer := by
  have hterm : TerminalAt (execSeq txs (Accept.execute a s).2)
      a.transfer_id :=
    terminalAt_execSeq txs (Accept.execute a s).2 a.transfer_id
      (accept_success_terminalAt a s hsucc) hfresh
  have hm : maybe_transfer (execSeq txs (Accept.execute a s).2)
      a2.transfer_id = none := by
    rw [hid]
    exact maybe_transfer_of_terminalAt _ _ hterm
  exact accept_unknown_of_maybe_none a2 _ hm

/-- Witness for C5: on the concrete ledger `sPend`, the first acceptance of
transfer 42 succeeds and an immediate second acceptance fails with
`UnknownTransfer`. -/
theorem C5_at_most_once_accept_witness :
    (Accept.execute exAccept sPend).1 = none ∧
    (Accept.execute exAccept
        (execSeq [] (Accept.execute exAccept sPend).2)).1 =
      some Error.UnknownTransfer :=
  ⟨rfl, C5_at_most_once_accept sPend exAccept rfl []
    (fun _ htr => nomatch htr) exAccept rfl⟩

end PrivateCurrency
